import Mathlib

/-!
# city-property-scraper — formal model of the environment pipeline

Shallow embedding of the repository's core: the environment scraper
(`src/environment_scraper.py`), the persistence layer (`src/database.py`,
`src/data_manager.py`) and the CSV bulk importer (`import_csv_to_db.py`).

HTTP calls are modelled by an oracle: each remote endpoint's behaviour is an
explicit argument (an `HttpOutcome` value, or a function of the query for the
coordinate-dependent pollution endpoint).  `requests.raise_for_status` turns a
non-2xx answer into a `requests.RequestException`, which the scraper catches
together with transport errors, so both appear as failure constructors of
`HttpOutcome`.  Parsed JSON bodies are modelled structurally, with `Option` /
`List` at exactly the places the Python code indexes into the response
(`data['main']`, `data['weather'][0]`, `geo_data[0]`, `aqi_data['list'][0]`):
a missing key or an empty list there raises `KeyError`/`IndexError`, which the
code catches and converts to `None`.  Numeric payload values are carried as
`Int`; the code never computes with them, it only copies them around.
-/

namespace CityScraper

/-- Outcome of one `requests.get(...)` followed by `raise_for_status()`:
a transport-level failure (connection/DNS/timeout), a non-2xx status turned
into an exception by `raise_for_status`, or a parsed JSON body. -/
inductive HttpOutcome (α : Type) where
  | transportErr : HttpOutcome α
  | statusErr (code : Nat) : HttpOutcome α
  | ok (body : α) : HttpOutcome α
deriving Repr, DecidableEq

/-! ## Weather endpoint (`/data/2.5/weather`) response shape -/

/-- The `main` object of the weather response (`data['main']`). -/
structure MainObj where
  temp : Int
  feels_like : Int
  humidity : Int
  pressure : Int
deriving Repr, DecidableEq

/-- One element of the `weather` list (`data['weather'][i]['description']`). -/
structure WeatherItem where
  description : String
deriving Repr, DecidableEq

/-- The `wind` object (`data['wind']['speed']`). -/
structure WindObj where
  speed : Int
deriving Repr, DecidableEq

/-- Parsed body of the current-conditions endpoint.  `main` and `wind` are
`Option` (a missing key raises `KeyError`, caught by the scraper), `weather`
is a list (index `[0]` of an empty list raises `IndexError`), and
`visibility` is read with `data.get('visibility', 'N/A')`, so its absence is
legal and never raises. -/
structure WeatherBody where
  main : Option MainObj
  weather : List WeatherItem
  wind : Option WindObj
  visibility : Option Int
deriving Repr, DecidableEq

/-- The value stored under `'visibility'` in the scraped weather dict:
either the provider's integer (meters) or the literal string `'N/A'`
substituted by `data.get('visibility', 'N/A')`. -/
inductive VisValue where
  | meters (m : Int) : VisValue
  | na : VisValue
deriving Repr, DecidableEq

/-- The weather dict built by `EnvironmentScraper.get_weather_data`
(environment_scraper.py lines 57–67). -/
structure WeatherData where
  city : String
  state : String
  temperature : Int
  feels_like : Int
  humidity : Int
  pressure : Int
  weather_description : String
  wind_speed : Int
  visibility : VisValue
deriving Repr, DecidableEq

/-! ## Geocode and air-pollution endpoint response shapes -/

/-- One element of the geocode response list (`geo_data[0]['lat']/'lon'`). -/
structure GeoEntry where
  lat : Int
  lon : Int
deriving Repr, DecidableEq

/-- Pollutant concentrations (`aqi_data['list'][0]['components']`). -/
structure Components where
  co : Int
  no2 : Int
  o3 : Int
  pm2_5 : Int
  pm10 : Int
deriving Repr, DecidableEq

/-- One element of the pollution response's `list` array. -/
structure AqiEntry where
  main_aqi : Int
  components : Components
deriving Repr, DecidableEq

/-- Parsed body of the `/air_pollution` endpoint; the code indexes
`aqi_data['list'][0]`, so the list may be empty (`IndexError`, caught). -/
structure AqiBody where
  list : List AqiEntry
deriving Repr, DecidableEq

/-- The air-quality dict built by `EnvironmentScraper.get_air_quality`
(environment_scraper.py lines 128–137). -/
structure AirQuality where
  city : String
  state : String
  aqi : Int
  co : Int
  no2 : Int
  o3 : Int
  pm2_5 : Int
  pm10 : Int
deriving Repr, DecidableEq

/-! ## EnvironmentScraper -/

/-- Model of `EnvironmentScraper.get_weather_data` (environment_scraper.py 28–77).
The single HTTP call is the `resp` argument.  `requests.RequestException`
(transport failure or `raise_for_status` on non-2xx) and
`KeyError`/`IndexError` while extracting fields are all caught and turned
into `None`.  `visibility` absent becomes the `'N/A'` sentinel, not a
failure. -/
def get_weather_data (resp : HttpOutcome WeatherBody) (city state : String) :
    Option WeatherData :=
  match resp with
  | .transportErr => none
  | .statusErr _ => none
  | .ok body =>
    match body.main, body.weather, body.wind with
    | some m, item :: _, some w =>
      some { city := city, state := state
             temperature := m.temp, feels_like := m.feels_like
             humidity := m.humidity, pressure := m.pressure
             weather_description := item.description
             wind_speed := w.speed
             visibility := match body.visibility with
                           | some v => .meters v
                           | none => .na }
    | _, _, _ => none

/-- Model of `EnvironmentScraper.get_air_quality` (environment_scraper.py 79–147).
Two sequential calls: the geocode lookup (`geoResp`), then — only with the
coordinates of the FIRST geocode entry — the pollution endpoint
(`aqiResp lat lon`).  An empty geocode list returns `None` (lines 105–107);
`requests.RequestException` and `KeyError`/`IndexError` from either call are
caught and also return `None` (lines 142–147). -/
def get_air_quality (geoResp : HttpOutcome (List GeoEntry))
    (aqiResp : Int → Int → HttpOutcome AqiBody) (city state : String) :
    Option AirQuality :=
  match geoResp with
  | .transportErr => none
  | .statusErr _ => none
  | .ok geo_data =>
    match geo_data with
    | [] => none
    | g :: _ =>
      match aqiResp g.lat g.lon with
      | .transportErr => none
      | .statusErr _ => none
      | .ok aqi_data =>
        match aqi_data.list with
        | [] => none
        | e :: _ =>
          some { city := city, state := state
                 aqi := e.main_aqi
                 co := e.components.co, no2 := e.components.no2
                 o3 := e.components.o3, pm2_5 := e.components.pm2_5
                 pm10 := e.components.pm10 }

/-- The envelope returned by `EnvironmentScraper.scrape`
(environment_scraper.py 166–169): a dict with exactly the keys `'weather'`
and `'air_quality'`, each `None` or a data dict.  Note that the envelope has
no other keys: the request's city/state appear only inside the sub-dicts. -/
structure Envelope where
  weather : Option WeatherData
  air_quality : Option AirQuality
deriving Repr, DecidableEq

/-- Model of `EnvironmentScraper.scrape` (environment_scraper.py 149–172):
run the two branches and combine their (possibly absent) results. -/
def scrape (wResp : HttpOutcome WeatherBody)
    (geoResp : HttpOutcome (List GeoEntry))
    (aqiResp : Int → Int → HttpOutcome AqiBody) (city state : String) :
    Envelope :=
  { weather := get_weather_data wResp city state
    air_quality := get_air_quality geoResp aqiResp city state }

/-- A weather-branch response on which `get_weather_data`'s body fails:
a transport error, a non-2xx status, or a body whose extraction raises
(`main` or `wind` missing, or `weather` empty). -/
def weatherRespFails (resp : HttpOutcome WeatherBody) : Prop :=
  match resp with
  | .transportErr => True
  | .statusErr _ => True
  | .ok body => body.main = none ∨ body.weather = [] ∨ body.wind = none

/-- An air-branch oracle on which `get_air_quality`'s body fails: the
geocode call fails or returns an empty list, or the pollution call (at the
first geocode entry's coordinates) fails or returns an empty `list`. -/
def airRespFails (geoResp : HttpOutcome (List GeoEntry))
    (aqiResp : Int → Int → HttpOutcome AqiBody) : Prop :=
  match geoResp with
  | .transportErr => True
  | .statusErr _ => True
  | .ok [] => True
  | .ok (g :: _) =>
    match aqiResp g.lat g.lon with
    | .transportErr => True
    | .statusErr _ => True
    | .ok aqi_data => aqi_data.list = []

/-! ## Relational store (`src/database.py`)

The store is SQLite through SQLAlchemy.  We model each table as the list of
its rows, in insertion order, and a commit as `Except`: a failed commit
raises (`IntegrityError` for a UNIQUE or NOT NULL violation,
`OperationalError` when the storage itself is unreachable) and leaves the
table as it was — the caller that catches the exception still holds the old
table, which models the rollback of the failed transaction only. -/

/-- Failure kinds a commit can raise: a UNIQUE-constraint collision on
`properties.property_id` (database.py line 19), a NOT NULL violation on a
`nullable=False` column, or the storage being unreachable. -/
inductive DbError where
  | duplicateKey : DbError
  | notNullViolation : DbError
  | storageUnavailable : DbError
deriving Repr, DecidableEq

/-- One row of the `properties` table (database.py 14–31), minus the
auto-increment `id` and the auto-generated `scrape_timestamp`.
`property_id`, `city` and `state` are `nullable=False` and always supplied
as strings by every caller in this repository, so they are plain `String`. -/
structure PropRow where
  property_id : String
  city : String
  state : String
  address : String
  neighborhood : String
  property_type : String
  price : Int
  bedrooms : Int
  bathrooms : Int
  sqft : Int
  year_built : Int
  lot_size : Int
deriving Repr, DecidableEq

/-- One row of the `environment` table (database.py 34–54), minus `id` and
the auto-generated timestamp.  Every data column is nullable, and
`Environment(**env_data)` leaves unsupplied columns as `None`, so each
field is an `Option`.  `visibility` is declared `Integer`, but SQLite's
flexible typing lets the adapter store the `'N/A'` string there, hence
`Option VisValue`. -/
structure EnvRow where
  city : Option String := none
  state : Option String := none
  temperature : Option Int := none
  feels_like : Option Int := none
  humidity : Option Int := none
  pressure : Option Int := none
  weather_description : Option String := none
  wind_speed : Option Int := none
  visibility : Option VisValue := none
  aqi : Option Int := none
  co : Option Int := none
  no2 : Option Int := none
  o3 : Option Int := none
  pm2_5 : Option Int := none
  pm10 : Option Int := none
deriving Repr, DecidableEq

namespace DatabaseManager

/-- Model of `DatabaseManager.save_property` (database.py 80–89): add the
row and commit.  The commit raises `OperationalError` when the storage is
down, and `IntegrityError` when `property_id` collides with an existing row
(the UNIQUE constraint); a raised commit leaves the table unchanged. -/
def save_property (storageUp : Bool) (tbl : List PropRow) (r : PropRow) :
    Except DbError (List PropRow) :=
  if !storageUp then .error .storageUnavailable
  else if tbl.any (fun q => q.property_id == r.property_id) then
    .error .duplicateKey
  else .ok (tbl ++ [r])

/-- Model of `DatabaseManager.save_environment` (database.py 91–100): add
the row and commit.  The `environment` table has no UNIQUE constraint, but
`city` and `state` are `nullable=False`, so a row missing either raises
`IntegrityError` at commit. -/
def save_environment (storageUp : Bool) (tbl : List EnvRow) (row : EnvRow) :
    Except DbError (List EnvRow) :=
  if !storageUp then .error .storageUnavailable
  else if row.city.isNone || row.state.isNone then .error .notNullViolation
  else .ok (tbl ++ [row])

end DatabaseManager

/-! ## Persistence adapter (`src/data_manager.py`) -/

/-- Property-scrape payload as handed to the `DataManager` operations: a
dict in which the `'properties'` key may be present (a list) or absent —
`data.get('properties', [])` treats absence as the empty list. -/
structure PropData where
  properties : Option (List PropRow)
deriving Repr, DecidableEq

/-- Flattening step of `DataManager.save_environment_to_db`
(data_manager.py 160–181): start from an empty dict, copy the weather
fields when the weather side is present, then the air-quality fields when
that side is present.  City and state come ONLY from the weather dict. -/
def flattenEnvRow (data : Envelope) : EnvRow :=
  let withW : EnvRow :=
    match data.weather with
    | none => {}
    | some w =>
      { city := some w.city, state := some w.state
        temperature := some w.temperature, feels_like := some w.feels_like
        humidity := some w.humidity, pressure := some w.pressure
        weather_description := some w.weather_description
        wind_speed := some w.wind_speed, visibility := some w.visibility }
  match data.air_quality with
  | none => withW
  | some a =>
    { withW with aqi := some a.aqi, co := some a.co, no2 := some a.no2
                 o3 := some a.o3, pm2_5 := some a.pm2_5, pm10 := some a.pm10 }

namespace DataManager

/-- Model of `DataManager.save_environment_to_db` (data_manager.py
148–186).  The whole body sits inside `try: ... except Exception as e:
logger.error(...)`, so every database failure — the NOT NULL violation and
the storage being unreachable included — is caught and logged, never
re-raised.  The result type still offers an `Except.error` channel so that
"propagates to the caller" is expressible, but the function always returns
`.ok`, pairing the (possibly unchanged) table with the absorbed, logged
error if any. -/
def save_environment_to_db (use_database storageUp : Bool)
    (tbl : List EnvRow) (data : Envelope) :
    Except DbError (List EnvRow × Option DbError) :=
  if !use_database then .ok (tbl, none)
  else
    match DatabaseManager.save_environment storageUp tbl (flattenEnvRow data) with
    | .ok t => .ok (t, none)
    | .error e => .ok (tbl, some e)

/-- Model of `DataManager.save_properties_to_db` (data_manager.py 125–146):
for each property dict (with `scrape_timestamp` stripped, which `PropRow`
never carries), try `db.save_property`; `except Exception` logs and moves
on to the next row, so no database failure ever reaches the caller.  The
returned list collects the absorbed (logged) errors in order. -/
def save_properties_to_db (use_database storageUp : Bool)
    (tbl : List PropRow) (data : PropData) :
    Except DbError (List PropRow × List DbError) :=
  if !use_database then .ok (tbl, [])
  else
    .ok <| (data.properties.getD []).foldl
      (fun acc p =>
        match DatabaseManager.save_property storageUp acc.1 p with
        | .ok t => (t, acc.2)
        | .error e => (acc.1, acc.2 ++ [e]))
      (tbl, [])

end DataManager

/-! ## CSV projection and bulk import

A pandas `DataFrame` cell is a string or a number for this pipeline; a row
is an insertion-ordered association list from column name to cell, exactly
the dicts the code builds (Python dicts preserve insertion order, and
pandas keeps the column order of the dicts).  The text serialization of
`to_csv`/`read_csv` is abstracted away: values keep the types pandas would
re-infer for these columns (numbers for numeric columns, strings
otherwise). -/

/-- One CSV cell. -/
inductive Field where
  | str (s : String) : Field
  | int (i : Int) : Field
deriving Repr, DecidableEq

/-- One CSV row: column name to cell, in column order. -/
abbrev Row := List (String × Field)

/-- Reading a cell raw, as `row['city']` does: never fails on a present
column (pandas renders whatever is there). -/
def Field.asStr : Field → String
  | .str s => s
  | .int i => toString i

/-- Converting a cell with `int(...)`/`float(...)`: succeeds on a numeric
cell and raises `ValueError` on a non-numeric string such as `'N/A'`. -/
def Field.asInt? : Field → Option Int
  | .int i => some i
  | .str _ => none

/-- The weather dict as an ordered list of columns (construction order of
environment_scraper.py 57–67). -/
def weatherItems (w : WeatherData) : Row :=
  [("city", .str w.city), ("state", .str w.state),
   ("temperature", .int w.temperature), ("feels_like", .int w.feels_like),
   ("humidity", .int w.humidity), ("pressure", .int w.pressure),
   ("weather_description", .str w.weather_description),
   ("wind_speed", .int w.wind_speed),
   ("visibility", match w.visibility with
                  | .meters m => .int m
                  | .na => .str "N/A")]

/-- The air-quality dict as an ordered list of columns (construction order
of environment_scraper.py 128–137). -/
def airItems (a : AirQuality) : Row :=
  [("city", .str a.city), ("state", .str a.state), ("aqi", .int a.aqi),
   ("co", .int a.co), ("no2", .int a.no2), ("o3", .int a.o3),
   ("pm2_5", .int a.pm2_5), ("pm10", .int a.pm10)]

/-- The property dict as an ordered list of columns (construction order of
property_scraper.py 44–57, which every property payload follows). -/
def propItems (p : PropRow) : Row :=
  [("property_id", .str p.property_id), ("city", .str p.city),
   ("state", .str p.state), ("address", .str p.address),
   ("neighborhood", .str p.neighborhood),
   ("property_type", .str p.property_type), ("price", .int p.price),
   ("bedrooms", .int p.bedrooms), ("bathrooms", .int p.bathrooms),
   ("sqft", .int p.sqft), ("year_built", .int p.year_built),
   ("lot_size", .int p.lot_size)]

/-- Column renaming `key ↦ tag + key`, as in `flattened[f'weather_{key}']`. -/
def tagKeys (tag : String) (r : Row) : Row :=
  r.map (fun kv => (tag ++ kv.1, kv.2))

/-- Bool test that a column name starts with the given tag, by character
list comparison (kept kernel-computable for concrete evaluation). -/
def hasTag (tag s : String) : Bool :=
  tag.data.isPrefixOf s.data

/-- A written CSV file: the header line and the data rows below it. -/
structure Csv where
  header : List String
  rows : List (List Field)
deriving Repr, DecidableEq

/-- The environment columns shared by the environment CSV and the combined
CSV (data_manager.py 73–82 and 216–225): `weather_`-renamed columns when
the weather side is present, then `air_quality_`-renamed columns when that
side is present, then `scrape_timestamp`.  An absent side contributes no
columns at all. -/
def envCols (data : Envelope) (ts : String) : Row :=
  (match data.weather with
   | none => []
   | some w => tagKeys "weather_" (weatherItems w)) ++
  (match data.air_quality with
   | none => []
   | some a => tagKeys "air_quality_" (airItems a)) ++
  [("scrape_timestamp", .str ts)]

namespace DataManager

/-- Model of `DataManager.save_environment_data` (data_manager.py 54–89):
flatten the envelope into one dict (the shared `envCols` shape) and write
`pd.DataFrame([flattened])`: a CSV whose header is the dict keys and whose
single data row is the dict values. -/
def save_environment_data (data : Envelope) (ts : String) : Csv :=
  let flattened : Row := envCols data ts
  { header := flattened.map Prod.fst, rows := [flattened.map Prod.snd] }

/-- Model of `DataManager.save_property_data` (data_manager.py 91–123):
with no properties (`data.get('properties', [])` empty) it logs a warning
and returns the empty string without writing any file — modelled as
`none`.  Otherwise each property becomes a row with `scrape_timestamp`
appended. -/
def save_property_data (data : PropData) (ts : String) : Option (List Row) :=
  let properties := data.properties.getD []
  if properties = [] then none
  else some (properties.map
    (fun p => propItems p ++ [("scrape_timestamp", .str ts)]))

/-- Model of `DataManager.save_combined_data` (data_manager.py 188–231):
with no properties it returns the empty string and writes nothing
(`none`).  Otherwise every property row receives the same
`weather_`-prefixed columns (when present), `air_quality_`-prefixed
columns (when present) and `scrape_timestamp`. -/
def save_combined_data (env_data : Envelope) (prop_data : PropData)
    (ts : String) : Option (List Row) :=
  let properties := prop_data.properties.getD []
  if properties = [] then none
  else some (properties.map (fun p => propItems p ++ envCols env_data ts))

end DataManager

/-! ## CSV bulk importer (`import_csv_to_db.py`) -/

/-- Failures the importer does NOT catch: `df.iloc[0]` on an empty frame,
and a `KeyError` (missing column) or `ValueError` (failed `int()`/`float()`
conversion) while building a row dict — both outside any `try`. -/
inductive ImportError where
  | emptyCsv : ImportError
  | rowAccessError : ImportError
deriving Repr, DecidableEq

/-- Building `property_data` from one CSV row (import_csv_to_db.py 14–27):
twelve column reads, the six numeric ones through `int(...)`.  This runs
before the `try`, so any failure is an uncaught `KeyError`/`ValueError`. -/
def getProp? (row : Row) : Option PropRow :=
  match row.lookup "property_id", row.lookup "city", row.lookup "state",
        row.lookup "address", row.lookup "neighborhood",
        row.lookup "property_type",
        (row.lookup "price").bind Field.asInt?,
        (row.lookup "bedrooms").bind Field.asInt?,
        (row.lookup "bathrooms").bind Field.asInt?,
        (row.lookup "sqft").bind Field.asInt?,
        (row.lookup "year_built").bind Field.asInt?,
        (row.lookup "lot_size").bind Field.asInt? with
  | some property_id, some city, some state, some address,
    some neighborhood, some property_type, some price, some bedrooms,
    some bathrooms, some sqft, some year_built, some lot_size =>
    some { property_id := property_id.asStr, city := city.asStr
           state := state.asStr, address := address.asStr
           neighborhood := neighborhood.asStr
           property_type := property_type.asStr
           price := price, bedrooms := bedrooms, bathrooms := bathrooms
           sqft := sqft, year_built := year_built, lot_size := lot_size }
  | _, _, _, _, _, _, _, _, _, _, _, _ => none

/-- Model of `import_properties_csv` (import_csv_to_db.py 9–38): for each
row, build `property_data` (an uncaught failure there aborts the whole
import) and try `db.save_property`; ANY exception from the save — the
duplicate-key case included — is printed, rolled back and skipped, and the
loop continues with the table as it was before that row. -/
def import_properties_csv (storageUp : Bool) (csv : List Row)
    (db : List PropRow) : Except ImportError (List PropRow) :=
  match csv with
  | [] => .ok db
  | row :: rest =>
    match getProp? row with
    | none => .error .rowAccessError
    | some p =>
      match DatabaseManager.save_property storageUp db p with
      | .ok db1 => import_properties_csv storageUp rest db1
      | .error _ => import_properties_csv storageUp rest db

/-- Building `env_data` from the first CSV row (import_csv_to_db.py
47–63): nine `weather_`-prefixed and six `air_quality_`-prefixed column
reads, outside any `try` — a missing column (absent envelope side) raises
`KeyError`, and `int(row['weather_visibility'])` raises `ValueError` on
the `'N/A'` sentinel. -/
def getEnv? (row : Row) : Option EnvRow :=
  match row.lookup "weather_city", row.lookup "weather_state",
        (row.lookup "weather_temperature").bind Field.asInt?,
        (row.lookup "weather_feels_like").bind Field.asInt?,
        (row.lookup "weather_humidity").bind Field.asInt?,
        (row.lookup "weather_pressure").bind Field.asInt?,
        row.lookup "weather_weather_description",
        (row.lookup "weather_wind_speed").bind Field.asInt?,
        (row.lookup "weather_visibility").bind Field.asInt?,
        (row.lookup "air_quality_aqi").bind Field.asInt?,
        (row.lookup "air_quality_co").bind Field.asInt?,
        (row.lookup "air_quality_no2").bind Field.asInt?,
        (row.lookup "air_quality_o3").bind Field.asInt?,
        (row.lookup "air_quality_pm2_5").bind Field.asInt?,
        (row.lookup "air_quality_pm10").bind Field.asInt? with
  | some city, some state, some temperature, some feels_like,
    some humidity, some pressure, some weather_description,
    some wind_speed, some visibility, some aqi, some co, some no2,
    some o3, some pm2_5, some pm10 =>
    some { city := some city.asStr, state := some state.asStr
           temperature := some temperature, feels_like := some feels_like
           humidity := some humidity, pressure := some pressure
           weather_description := some weather_description.asStr
           wind_speed := some wind_speed
           visibility := some (.meters visibility)
           aqi := some aqi, co := some co, no2 := some no2, o3 := some o3
           pm2_5 := some pm2_5, pm10 := some pm10 }
  | _, _, _, _, _, _, _, _, _, _, _, _, _, _, _ => none

/-- Model of `import_environment_csv` (import_csv_to_db.py 40–70): take
the FIRST row (`df.iloc[0]` — raises on an empty frame), build `env_data`
(uncaught failures as above), then try `db.save_environment`; an exception
from the save is printed and rolled back, not re-raised, so a database
failure comes back as an absorbed error next to the unchanged table. -/
def import_environment_csv (storageUp : Bool) (csv : List Row)
    (tbl : List EnvRow) : Except ImportError (List EnvRow × Option DbError) :=
  match csv with
  | [] => .error .emptyCsv
  | row :: _ =>
    match getEnv? row with
    | none => .error .rowAccessError
    | some er =>
      match DatabaseManager.save_environment storageUp tbl er with
      | .ok t => .ok (t, none)
      | .error e => .ok (tbl, some e)

/-! ## Concrete fixtures

Sample values used by witnesses and counterexamples. -/

/-- A sample weather reading. -/
def w0 : WeatherData :=
  { city := "Austin", state := "TX", temperature := 70, feels_like := 68,
    humidity := 40, pressure := 1015, weather_description := "clear sky",
    wind_speed := 5, visibility := .meters 10000 }

/-- A sample air-quality reading. -/
def a0 : AirQuality :=
  { city := "Austin", state := "TX", aqi := 2, co := 200, no2 := 10,
    o3 := 50, pm2_5 := 8, pm10 := 15 }

/-- A sample property row. -/
def p0 : PropRow :=
  { property_id := "PROP-AUS-1000", city := "Austin", state := "TX",
    address := "100 Main St", neighborhood := "Downtown",
    property_type := "Condo", price := 300000, bedrooms := 3,
    bathrooms := 2, sqft := 1500, year_built := 2001, lot_size := 5000 }

/-- A second sample property row with a distinct natural key. -/
def p1 : PropRow := { p0 with property_id := "PROP-AUS-1001" }

/-- A pollution endpoint that always answers with one well-formed entry. -/
def aqiResp0 : Int → Int → HttpOutcome AqiBody :=
  fun _ _ => .ok ⟨[⟨2, ⟨200, 10, 50, 8, 15⟩⟩]⟩

/-- A well-formed weather body without the optional `visibility` key. -/
def wbodyNoVis : WeatherBody :=
  { main := some ⟨70, 68, 40, 1015⟩, weather := [⟨"clear sky"⟩],
    wind := some ⟨5⟩, visibility := none }

/-! ## Branch-failure lemmas -/

/-- On any failing weather-branch response the weather fetch yields `None`. -/
theorem get_weather_data_eq_none (resp : HttpOutcome WeatherBody)
    (city state : String) (h : weatherRespFails resp) :
    get_weather_data resp city state = none := by
  cases resp with
  | transportErr => rfl
  | statusErr code => rfl
  | ok body =>
    obtain ⟨m, wl, wd, vis⟩ := body
    simp only [weatherRespFails] at h
    rcases h with h | h | h
    · subst h; rfl
    · subst h
      cases m with
      | none => rfl
      | some _ => rfl
    · subst h
      cases m with
      | none => rfl
      | some _ =>
        cases wl with
        | nil => rfl
        | cons _ _ => rfl

/-- On any failing air-branch oracle the air-quality fetch yields `None`. -/
theorem get_air_quality_eq_none (geoResp : HttpOutcome (List GeoEntry))
    (aqiResp : Int → Int → HttpOutcome AqiBody) (city state : String)
    (h : airRespFails geoResp aqiResp) :
    get_air_quality geoResp aqiResp city state = none := by
  cases geoResp with
  | transportErr => rfl
  | statusErr _ => rfl
  | ok geo =>
    cases geo with
    | nil => rfl
    | cons g gs =>
      simp only [airRespFails] at h
      cases haq : aqiResp g.lat g.lon with
      | transportErr => simp [get_air_quality, haq]
      | statusErr _ => simp [get_air_quality, haq]
      | ok abody =>
        rw [haq] at h
        simp only [] at h
        simp [get_air_quality, haq, h]

/-! ## Claims -/

/-- C1: `EnvironmentScraper.scrape` always returns an envelope — it is a
total function of the two branch oracles — whose fields are exactly the two
independent branch results; a failure (transport, non-2xx status, or
missing/malformed response fields) in either branch makes only that field
absent and leaves the other field exactly the value its own branch
produces. -/
theorem scrape_always_envelope_absorbs_failures
    (wResp : HttpOutcome WeatherBody) (geoResp : HttpOutcome (List GeoEntry))
    (aqiResp : Int → Int → HttpOutcome AqiBody) (city state : String) :
    scrape wResp geoResp aqiResp city state =
      { weather := get_weather_data wResp city state
        air_quality := get_air_quality geoResp aqiResp city state } ∧
    (weatherRespFails wResp →
      scrape wResp geoResp aqiResp city state =
        { weather := none
          air_quality := get_air_quality geoResp aqiResp city state }) ∧
    (airRespFails geoResp aqiResp →
      scrape wResp geoResp aqiResp city state =
        { weather := get_weather_data wResp city state
          air_quality := none }) :=
  ⟨rfl,
   fun h => by simp [scrape, get_weather_data_eq_none _ _ _ h],
   fun h => by simp [scrape, get_air_quality_eq_none _ _ _ _ h]⟩

/-- Witness for C1: with a transport failure on the weather call and an
empty geocode answer, `scrape` still returns an envelope, with both fields
absent. -/
theorem scrape_always_envelope_absorbs_failures_witness :
    scrape .transportErr (.ok []) aqiResp0 "Austin" "TX" =
      { weather := none, air_quality := none } := by
  have h :=
    (scrape_always_envelope_absorbs_failures .transportErr (.ok [])
      aqiResp0 "Austin" "TX").2.1 trivial
  rw [h]; rfl

/-- C6 counterexample: an empty geocode result list and a transport error
produce the SAME outcome of `get_air_quality` (`None`), so the caller
cannot distinguish a not-found place from a network failure — there is no
distinct `NotFoundError`. -/
theorem geocode_empty_counterexample :
    get_air_quality (.ok []) aqiResp0 "Austin" "TX" =
      get_air_quality .transportErr aqiResp0 "Austin" "TX" ∧
    get_air_quality (.ok []) aqiResp0 "Austin" "TX" = none :=
  ⟨rfl, rfl⟩

/-- C6 amended: when the geocode lookup returns an empty result list,
`get_air_quality` returns `None` — the same absent value it produces for a
transport error or any HTTP status error of the same step; only the logged
message differs, so the failure kinds are not distinguishable by the
caller. -/
theorem geocode_empty_same_as_transport
    (aqiResp : Int → Int → HttpOutcome AqiBody) (city state : String)
    (code : Nat) :
    get_air_quality (.ok []) aqiResp city state = none ∧
    get_air_quality .transportErr aqiResp city state = none ∧
    get_air_quality (.statusErr code) aqiResp city state = none :=
  ⟨rfl, rfl, rfl⟩

/-- C7: when the weather call and both air-quality calls succeed with
well-formed bodies, the envelope has both readings present, and both echo
the requested city and state. -/
theorem scrape_both_success (body : WeatherBody) (m : MainObj)
    (item : WeatherItem) (rest : List WeatherItem) (wd : WindObj)
    (g : GeoEntry) (gs : List GeoEntry) (abody : AqiBody) (e : AqiEntry)
    (es : List AqiEntry) (aqiResp : Int → Int → HttpOutcome AqiBody)
    (city state : String)
    (hm : body.main = some m) (hw : body.weather = item :: rest)
    (hwd : body.wind = some wd)
    (ha : aqiResp g.lat g.lon = .ok abody) (hl : abody.list = e :: es) :
    ∃ w aq,
      (scrape (.ok body) (.ok (g :: gs)) aqiResp city state).weather = some w ∧
      (scrape (.ok body) (.ok (g :: gs)) aqiResp city state).air_quality = some aq ∧
      w.city = city ∧ w.state = state ∧ aq.city = city ∧ aq.state = state := by
  obtain ⟨bm, bw, bwd, bv⟩ := body
  simp only at hm hw hwd
  subst hm hw hwd
  have hair :
      (scrape (.ok ⟨some m, item :: rest, some wd, bv⟩) (.ok (g :: gs))
        aqiResp city state).air_quality =
      some { city := city, state := state, aqi := e.main_aqi
             co := e.components.co, no2 := e.components.no2
             o3 := e.components.o3, pm2_5 := e.components.pm2_5
             pm10 := e.components.pm10 } := by
    simp [scrape, get_air_quality, ha, hl]
  exact ⟨_, _, rfl, hair, rfl, rfl, rfl, rfl⟩

/-- Witness for C7: both branches succeed on concrete well-formed
responses, and both readings echo the request. -/
theorem scrape_both_success_witness :
    ∃ w aq,
      (scrape (.ok wbodyNoVis) (.ok [⟨30, -97⟩]) aqiResp0
        "Austin" "TX").weather = some w ∧
      (scrape (.ok wbodyNoVis) (.ok [⟨30, -97⟩]) aqiResp0
        "Austin" "TX").air_quality = some aq ∧
      w.city = "Austin" ∧ w.state = "TX" ∧
      aq.city = "Austin" ∧ aq.state = "TX" :=
  scrape_both_success wbodyNoVis ⟨70, 68, 40, 1015⟩ ⟨"clear sky"⟩ []
    ⟨5⟩ ⟨30, -97⟩ [] ⟨[⟨2, ⟨200, 10, 50, 8, 15⟩⟩]⟩ ⟨2, ⟨200, 10, 50, 8, 15⟩⟩
    [] aqiResp0 "Austin" "TX" rfl rfl rfl rfl rfl

/-- C9: a weather response with every expected field present except the
optional `visibility` still succeeds, and the reading carries the `N/A`
sentinel — a real value, not an absent one — in its visibility
attribute. -/
theorem visibility_sentinel (body : WeatherBody) (m : MainObj)
    (item : WeatherItem) (rest : List WeatherItem) (wd : WindObj)
    (city state : String)
    (hm : body.main = some m) (hw : body.weather = item :: rest)
    (hwd : body.wind = some wd) (hv : body.visibility = none) :
    ∃ w, get_weather_data (.ok body) city state = some w ∧
      w.visibility = VisValue.na := by
  obtain ⟨bm, bw, bwd, bv⟩ := body
  simp only at hm hw hwd hv
  subst hm hw hwd hv
  exact ⟨_, rfl, rfl⟩

/-- Witness for C9: the concrete no-visibility body succeeds with the
sentinel. -/
theorem visibility_sentinel_witness :
    ∃ w, get_weather_data (.ok wbodyNoVis) "Austin" "TX" = some w ∧
      w.visibility = VisValue.na :=
  visibility_sentinel wbodyNoVis ⟨70, 68, 40, 1015⟩ ⟨"clear sky"⟩ [] ⟨5⟩
    "Austin" "TX" rfl rfl rfl rfl

/-- C2 counterexample: when both branches fail, envelopes for two
DIFFERENT cities are equal — the envelope is `{weather := none,
air_quality := none}` with no other keys, so the request identity is not
known from the envelope itself.  And with the weather side absent, the
flattened row has no city/state, so the NOT NULL constraint rejects the
insert: the present air-quality side is NOT persisted (the table stays
empty and the error is merely logged). -/
theorem envelope_identity_counterexample :
    scrape .transportErr .transportErr aqiResp0 "Austin" "TX" =
      scrape .transportErr .transportErr aqiResp0 "Dallas" "TX" ∧
    DataManager.save_environment_to_db true true [] ⟨none, some a0⟩ =
      .ok ([], some .notNullViolation) :=
  ⟨rfl, rfl⟩

/-- C2 amended: the envelope records (city, state) only inside whichever
sub-fields are present; when both branches fail the envelope is
`{none, none}` and carries no identity at all.  Absence of the air-quality
side does not block persisting the weather side, but absence of the
weather side leaves the NOT NULL `city`/`state` columns unset, so an
air-quality-only envelope persists nothing: the insert fails and the
adapter absorbs the error. -/
theorem envelope_identity_amended (w : WeatherData) (a : AirQuality)
    (tbl : List EnvRow) (city state city2 state2 : String)
    (aq aq2 : Int → Int → HttpOutcome AqiBody) :
    scrape .transportErr .transportErr aq city state =
      scrape .transportErr .transportErr aq2 city2 state2 ∧
    DataManager.save_environment_to_db true true tbl ⟨some w, none⟩ =
      .ok (tbl ++ [flattenEnvRow ⟨some w, none⟩], none) ∧
    DataManager.save_environment_to_db true true tbl ⟨none, some a⟩ =
      .ok (tbl, some .notNullViolation) :=
  ⟨rfl, rfl, rfl⟩

/-- C3: inserting a fresh `property_id` succeeds; inserting ANY further
row with the same `property_id` fails with the duplicate-key error and —
since the rejected transaction leaves the table as it was — the table
afterwards holds exactly one row with that id. -/
theorem save_property_duplicate_key (tbl : List PropRow) (r r2 : PropRow)
    (h0 : tbl.countP (fun q => q.property_id == r.property_id) = 0)
    (hdup : r2.property_id = r.property_id) :
    DatabaseManager.save_property true tbl r = .ok (tbl ++ [r]) ∧
    DatabaseManager.save_property true (tbl ++ [r]) r2 =
      .error .duplicateKey ∧
    (tbl ++ [r]).countP (fun q => q.property_id == r.property_id) = 1 := by
  have hmem : ∀ q ∈ tbl, ¬ (q.property_id == r.property_id) = true :=
    List.countP_eq_zero.mp h0
  have hany : tbl.any (fun q => q.property_id == r.property_id) = false := by
    rw [List.any_eq_false]
    exact hmem
  refine ⟨?_, ?_, ?_⟩
  · simp [DatabaseManager.save_property, hany]
  · have hany2 :
        (tbl ++ [r]).any (fun q => q.property_id == r2.property_id) = true := by
      simp [List.any_append, hdup]
    simp [DatabaseManager.save_property, hany2]
  · rw [List.countP_append, h0]
    simp [List.countP_cons]

/-- Witness for C3: a concrete duplicate insert is rejected and exactly
one row with the key remains. -/
theorem save_property_duplicate_key_witness :
    DatabaseManager.save_property true [] p0 = .ok [p0] ∧
    DatabaseManager.save_property true [p0] { p0 with price := 123 } =
      .error .duplicateKey ∧
    [p0].countP (fun q => q.property_id == p0.property_id) = 1 := by
  have h := save_property_duplicate_key [] p0 { p0 with price := 123 }
    rfl rfl
  simpa using h

/-- C4 counterexample: with the storage unreachable, the environment-save
adapter call still returns normally (`.ok`), the table unchanged, with the
storage error merely recorded as a logged warning — it is caught by the
adapter (the blanket `except Exception`), not propagated to the caller. -/
theorem storage_unavailable_absorbed_counterexample :
    DataManager.save_environment_to_db true false [] ⟨some w0, some a0⟩ =
      .ok ([], some .storageUnavailable) ∧
    DataManager.save_environment_to_db true false [] ⟨some w0, some a0⟩ ≠
      .error .storageUnavailable :=
  ⟨rfl, fun hcontra => Except.noConfusion hcontra⟩

/-- C4 amended: a storage-unavailable failure during an environment or
property save is always caught by the adapter and converted to a logged
error; the adapter returns normally with its table unchanged, and nothing
propagates to the caller (for the property batch, every row absorbs its
own storage error and the loop continues). -/
theorem storage_unavailable_absorbed (tbl : List EnvRow) (data : Envelope)
    (ptbl : List PropRow) (pd : PropData) :
    DataManager.save_environment_to_db true false tbl data =
      .ok (tbl, some .storageUnavailable) ∧
    DataManager.save_properties_to_db true false ptbl pd =
      .ok (ptbl,
        (pd.properties.getD []).map fun _ => DbError.storageUnavailable) := by
  constructor
  · rfl
  · have hfold : ∀ (props rows : List PropRow) (errs : List DbError),
        props.foldl
          (fun acc p =>
            match DatabaseManager.save_property false acc.1 p with
            | .ok t => (t, acc.2)
            | .error e => (acc.1, acc.2 ++ [e]))
          (rows, errs) =
        (rows, errs ++ props.map fun _ => DbError.storageUnavailable) := by
      intro props
      induction props with
      | nil => intro rows errs; simp
      | cons p rest ih =>
        intro rows errs
        simp only [List.foldl_cons, List.map_cons]
        have hstep :
            (match DatabaseManager.save_property false rows p with
              | Except.ok t => (t, errs)
              | Except.error e => (rows, errs ++ [e])) =
            (rows, errs ++ [DbError.storageUnavailable]) := rfl
        rw [hstep, ih rows (errs ++ [DbError.storageUnavailable])]
        simp
    simp [DataManager.save_properties_to_db, hfold]

/-- C8: the CSV projection of an envelope with weather present and
air-quality absent has exactly the nine `weather_`-renamed columns (in the
weather dict construction order) plus `scrape_timestamp`, no
`air_quality_`-renamed column at all, and exactly one data row. -/
theorem env_csv_weather_only (w : WeatherData) (ts : String) :
    (DataManager.save_environment_data ⟨some w, none⟩ ts).header =
      ["weather_city", "weather_state", "weather_temperature",
       "weather_feels_like", "weather_humidity", "weather_pressure",
       "weather_weather_description", "weather_wind_speed",
       "weather_visibility", "scrape_timestamp"] ∧
    ((DataManager.save_environment_data ⟨some w, none⟩ ts).header.all
      fun s => !hasTag "air_quality_" s) = true ∧
    "scrape_timestamp" ∈
      (DataManager.save_environment_data ⟨some w, none⟩ ts).header ∧
    (DataManager.save_environment_data ⟨some w, none⟩ ts).rows.length = 1 := by
  have hh : (DataManager.save_environment_data ⟨some w, none⟩ ts).header =
      ["weather_city", "weather_state", "weather_temperature",
       "weather_feels_like", "weather_humidity", "weather_pressure",
       "weather_weather_description", "weather_wind_speed",
       "weather_visibility", "scrape_timestamp"] := rfl
  refine ⟨hh, ?_, ?_, rfl⟩
  · rw [hh]; decide
  · rw [hh]; decide

/-- C10: with an empty — or missing — properties list, the property CSV
save and the combined CSV save both return the empty string and write no
file. -/
theorem empty_properties_no_file (data : PropData) (env : Envelope)
    (ts : String)
    (h : data.properties = none ∨ data.properties = some []) :
    DataManager.save_property_data data ts = none ∧
    DataManager.save_combined_data env data ts = none := by
  obtain ⟨props⟩ := data
  simp only at h
  rcases h with h | h <;> subst h <;> exact ⟨rfl, rfl⟩

/-- Witness for C10: a payload without the properties key saves nothing. -/
theorem empty_properties_no_file_witness :
    DataManager.save_property_data ⟨none⟩ "t0" = none ∧
    DataManager.save_combined_data ⟨some w0, some a0⟩ ⟨none⟩ "t0" = none :=
  empty_properties_no_file ⟨none⟩ ⟨some w0, some a0⟩ "t0" (Or.inl rfl)

/-! ## Round-trip development (C5) -/

/-- Reading the property columns back from a combined row recovers the
property exactly: the twelve property columns sit first in the row, so the
appended environment columns are never consulted. -/
theorem getProp?_propItems (p : PropRow) (tail : Row) :
    getProp? (propItems p ++ tail) = some p := rfl

/-- A property whose key is absent from the table inserts cleanly. -/
theorem save_property_fresh (db : List PropRow) (p : PropRow)
    (h : p.property_id ∉ db.map (·.property_id)) :
    DatabaseManager.save_property true db p = .ok (db ++ [p]) := by
  have hany : db.any (fun q => q.property_id == p.property_id) = false := by
    rw [List.any_eq_false]
    intro q hq hbeq
    exact h (List.mem_map.mpr ⟨q, hq, beq_iff_eq.mp hbeq⟩)
  simp [DatabaseManager.save_property, hany]

/-- A property whose key is already in the table is rejected with the
duplicate-key error. -/
theorem save_property_dup (db : List PropRow) (p : PropRow)
    (h : p.property_id ∈ db.map (·.property_id)) :
    DatabaseManager.save_property true db p = .error .duplicateKey := by
  have hany : db.any (fun q => q.property_id == p.property_id) = true := by
    rw [List.any_eq_true]
    obtain ⟨q, hq, heq⟩ := List.mem_map.mp h
    exact ⟨q, hq, beq_iff_eq.mpr heq⟩
  simp [DatabaseManager.save_property, hany]

/-- Importing rows whose property keys are fresh and pairwise distinct
appends exactly those properties to the table, in order. -/
theorem import_properties_fresh (tail : Row) :
    ∀ (props db : List PropRow),
      (props.map (·.property_id)).Nodup →
      (∀ q ∈ props, q.property_id ∉ db.map (·.property_id)) →
      import_properties_csv true (props.map fun p => propItems p ++ tail) db =
        .ok (db ++ props) := by
  intro props
  induction props with
  | nil => intro db _ _; simp [import_properties_csv]
  | cons p rest ih =>
    intro db hnd hdisj
    have hhead := (List.nodup_cons.mp hnd).1
    have hnd' := (List.nodup_cons.mp hnd).2
    have hdisj' : ∀ q ∈ rest,
        q.property_id ∉ (db ++ [p]).map (·.property_id) := by
      intro q hq
      simp only [List.map_append, List.mem_append, List.map_cons,
        List.map_nil, List.mem_singleton, not_or]
      refine ⟨hdisj q (List.mem_cons_of_mem _ hq), ?_⟩
      intro hc
      have hqm : q.property_id ∈ rest.map (·.property_id) :=
        List.mem_map_of_mem _ hq
      rw [hc] at hqm
      exact hhead hqm
    have hsave := save_property_fresh db p (hdisj p (List.mem_cons_self _ _))
    simp only [List.map_cons, import_properties_csv, getProp?_propItems, hsave]
    rw [ih (db ++ [p]) hnd' hdisj']
    simp

/-- Reading the environment columns back from a combined row whose weather
side carries an integer visibility recovers exactly the row the direct
database path would flatten from the same envelope. -/
theorem getEnv?_combined (p : PropRow) (w : WeatherData) (a : AirQuality)
    (v : Int) (ts : String) (hv : w.visibility = .meters v) :
    getEnv? (propItems p ++ envCols ⟨some w, some a⟩ ts) =
      some (flattenEnvRow ⟨some w, some a⟩) := by
  obtain ⟨c, s, t, f, hmd, pr, d, ws, vis⟩ := w
  simp only at hv
  subst hv
  rfl

/-- C5 counterexample: replaying a combined CSV written from an envelope
WITHOUT the weather side does not reproduce the environment row: the
environment import reads the `weather_city` column outside any `try`, so
the replay fails with an uncaught error instead. -/
theorem combined_roundtrip_counterexample :
    (DataManager.save_combined_data ⟨none, some a0⟩ ⟨some [p0]⟩ "t0").map
      (fun csv => import_environment_csv true csv []) =
      some (.error .rowAccessError) := rfl

/-- C5 amended: the round-trip holds for every combined CSV produced from
an envelope with BOTH sides present and an integer (non-sentinel)
visibility, and a nonempty property list with pairwise-distinct ids:
replaying it into an empty store reproduces exactly the property rows
(timestamps are regenerated by the store) and the single environment row.
Separately, a replayed row whose property id already exists in the store
is skipped — the store is unchanged by it — and the rest of the batch is
still processed.  For envelopes with an absent side or the `N/A`
visibility sentinel the environment import fails instead (see the
counterexample). -/
theorem combined_roundtrip_amended :
    (∀ (w : WeatherData) (a : AirQuality) (v : Int) (props : List PropRow)
       (ts : String),
      w.visibility = .meters v → props ≠ [] →
      (props.map (·.property_id)).Nodup →
      ∃ csv,
        DataManager.save_combined_data ⟨some w, some a⟩ ⟨some props⟩ ts =
          some csv ∧
        import_properties_csv true csv [] = .ok props ∧
        import_environment_csv true csv [] =
          .ok ([flattenEnvRow ⟨some w, some a⟩], none)) ∧
    (∀ (row : Row) (rest : List Row) (db : List PropRow) (p : PropRow),
      getProp? row = some p →
      p.property_id ∈ db.map (·.property_id) →
      import_properties_csv true (row :: rest) db =
        import_properties_csv true rest db) := by
  constructor
  · intro w a v props ts hv hne hnd
    refine ⟨props.map (fun p => propItems p ++ envCols ⟨some w, some a⟩ ts),
      ?_, ?_, ?_⟩
    · simp [DataManager.save_combined_data, hne]
    · have h := import_properties_fresh (envCols ⟨some w, some a⟩ ts) props []
        hnd (by simp)
      simpa using h
    · obtain ⟨q, qs, rfl⟩ : ∃ q qs, props = q :: qs := by
        cases props with
        | nil => exact absurd rfl hne
        | cons q qs => exact ⟨q, qs, rfl⟩
      simp only [List.map_cons, import_environment_csv]
      rw [getEnv?_combined q w a v ts hv]
      rfl
  · intro row rest db p hget hdup
    have hsp := save_property_dup db p hdup
    simp only [import_properties_csv, hget, hsp]

/-- Witness for C5: the concrete two-property round-trip, and a concrete
duplicate skip. -/
theorem combined_roundtrip_witness :
    (∃ csv,
      DataManager.save_combined_data ⟨some w0, some a0⟩ ⟨some [p0, p1]⟩ "t0" =
        some csv ∧
      import_properties_csv true csv [] = .ok [p0, p1] ∧
      import_environment_csv true csv [] =
        .ok ([flattenEnvRow ⟨some w0, some a0⟩], none)) ∧
    import_properties_csv true
        [propItems p0 ++ envCols ⟨some w0, some a0⟩ "t0"] [p0] =
      .ok [p0] := by
  constructor
  · exact combined_roundtrip_amended.1 w0 a0 10000 [p0, p1] "t0" rfl
      (List.cons_ne_nil _ _) (by decide)
  · rw [combined_roundtrip_amended.2
      (propItems p0 ++ envCols ⟨some w0, some a0⟩ "t0") [] [p0] p0 rfl
      (by decide)]
    rfl

end CityScraper
